import Mathlib

set_option autoImplicit false

/-!
Shallow embedding of the meowrch theme/wallpaper manager, translated from
`src/home/.config/meowrch/utils/config.py`, `utils/theming.py` and
`utils/selecting.py`.

Modelling conventions:
* Filesystem paths are strings; `Path(p).exists()` is the environment
  predicate `Env.fs`.
* `Path(p).expanduser().resolve()` is modelled as expansion of a leading
  tilde against the home directory (`expand_user`); symlink resolution and
  `..` normalization are not modelled, inputs are taken to be in normal form.
* `os.path.expandvars` is modelled as the identity (no variable references
  in modelled inputs).
* Python exceptions are the error side of `Except PyErr`; `random.choice`
  takes an extra index parameter and, as in CPython, raises `IndexError` on
  an empty sequence.
* Python `dict` (insertion ordered) is an association list with `alookup`
  and in-place `alUpdate`; `list.remove` is `List.erase` (first occurrence).
* External subprocesses (feh/swww, `ln -sf`) are success flags in `Eff`;
  the YAML file existing is `Env.configExists`; the persisted YAML document
  is threaded explicitly through every store operation.
-/

/-- Prefix test on character lists (kernel-computable replacement for the
opaque `String.isPrefixOf`). -/
def prefixChars : List Char → List Char → Bool
  | [], _ => true
  | _ :: _, [] => false
  | a :: as, b :: bs => if a = b then prefixChars as bs else false

/-- Prefix test on strings. -/
def strPrefixOf (p s : String) : Bool := prefixChars p.data s.data

/-- Drop the first `n` characters of a string. -/
def strDrop (s : String) (n : Nat) : String := String.mk (s.data.drop n)

/-- Character count of a string. -/
def strLen (s : String) : Nat := s.data.length

/-- Split a character list at every occurrence of `c`, matching
`str.split(sep)` for a one-character separator. -/
def splitChar (c : Char) : List Char → List (List Char)
  | [] => [[]]
  | x :: xs =>
    match splitChar c xs with
    | [] => [[]]
    | y :: ys => if x = c then [] :: y :: ys else (x :: y) :: ys

/-- Join character lists with the separator `c`, inverse of `splitChar`. -/
def interChar (c : Char) : List (List Char) → List Char
  | [] => []
  | [x] => x
  | x :: y :: ys => x ++ c :: interChar c (y :: ys)

/-- ASCII lower-casing of one character, modelling `str.lower` on the
extension alphabet. -/
def charLower (c : Char) : Char :=
  if 65 ≤ c.toNat ∧ c.toNat ≤ 90 then Char.ofNat (c.toNat + 32) else c

/-- ASCII lower-casing of a string. -/
def strLower (s : String) : String := String.mk (s.data.map charLower)

/-- ASCII whitespace test used by `strTrim`. -/
def isSpaceChar (c : Char) : Bool :=
  c = ' ' || c = '\t' || c = '\n' || c = '\r'

/-- Strip leading and trailing ASCII whitespace, modelling `str.strip()`
(config.py:65). -/
def strTrim (s : String) : String :=
  String.mk (((s.data.dropWhile isSpaceChar).reverse.dropWhile isSpaceChar).reverse)

/-- Expansion of a leading tilde against the home directory, modelling
`Path.expanduser` (applied in `get_current_wallpaper`, config.py:65, and at
the entry of the add/remove manager operations, theming.py:126/197). -/
def expand_user (home s : String) : String :=
  if s = "~" then home
  else if strPrefixOf "~/" s then home ++ strDrop s 1
  else s

/-- Home-relative storage form of a path, modelling the
`wallpaper_path.relative_to(home_path)` / `ValueError` fallback logic of
theming.py:159-166 and 232-239. -/
def to_config_path (home p : String) : String :=
  if strPrefixOf (home ++ "/") p then "~/" ++ strDrop p (strLen home + 1) else p

/-- Final path component, modelling `pathlib.Path.name`. -/
def path_name (p : String) : String :=
  String.mk ((splitChar '/' p.data).getLastD p.data)

/-- File extension of the final component, modelling `pathlib.Path.suffix`
(empty for names without an inner dot, for dotfiles and for a trailing dot,
as in CPython's `rfind` based implementation). -/
def path_suffix (p : String) : String :=
  let n := (path_name p).data
  let parts := splitChar '.' n
  if parts.length ≤ 1 then ""
  else if parts.getLastD [] = [] then ""
  else if interChar '.' parts.dropLast = [] then ""
  else String.mk ('.' :: parts.getLastD [])

/-- The recognized image extensions of theming.py:135 and 376. -/
def valid_extensions : List String :=
  [".png", ".jpg", ".jpeg", ".webp", ".bmp", ".gif"]

/-- Check `wallpaper_path.suffix.lower() in valid_extensions`
(theming.py:136). -/
def has_valid_ext (p : String) : Bool :=
  valid_extensions.contains (strLower (path_suffix p))

deriving instance DecidableEq for Except

/-- The Python exceptions reachable in the embedded code. -/
inductive PyErr where
  | noConfigFile
  | invalidSession
  | valueError
  | attributeError
  | indexError
  | noThemesToInstall
deriving DecidableEq

/-- Per-theme mapping value in the YAML document. The field distinguishes a
missing `available_wallpapers` key (`none`), an explicit null (`some none`)
and a list (`some (some l)`), because `get_all_themes` treats a missing key
as `[]` but skips an explicit null (config.py:133-136), while the store
mutators normalize both to `[]` (config.py:210-211). -/
structure ThemeParams where
  available_wallpapers : Option (Option (List String))
deriving DecidableEq

/-- The persisted YAML document (config.py keys `current-xtheme`,
`current-wtheme`, `current-xwallpaper`, `current-wwallpaper`,
`custom-wallpapers`, `themes`). A theme entry value of `none` models an
explicitly null params mapping. -/
structure Document where
  currentXtheme : Option String := none
  currentWtheme : Option String := none
  currentXwallpaper : Option String := none
  currentWwallpaper : Option String := none
  customWallpapers : Option (List String) := none
  themes : Option (List (String × Option ThemeParams)) := none
deriving DecidableEq

/-- The materialized theme (`utils/schemes.Theme`, per spec §3: name, ordered
wallpaper paths, icon path). -/
structure Theme where
  name : String
  available_wallpapers : List String
  icon : String
deriving DecidableEq

/-- Ambient process environment: session type, home directory, which paths
exist on disk, and whether the YAML config file exists. -/
structure Env where
  session : String
  home : String
  fs : String → Bool
  configExists : Bool

/-- Outcomes of the external side effects: whether the wallpaper-setting tool
(feh/swww) succeeds, whether `ln -sf` succeeds, and the index drawn by
`random.choice`. -/
structure Eff where
  toolOk : Bool := true
  symlinkOk : Bool := true
  randIdx : Nat := 0
deriving DecidableEq

/-- First value bound to a key in an insertion-ordered association list,
modelling Python `dict` lookup. -/
def alookup {α : Type} : List (String × α) → String → Option α
  | [], _ => none
  | (k, v) :: t, key => if k = key then some v else alookup t key

/-- In-place update of an insertion-ordered association list, modelling
Python `dict.__setitem__`: an existing key keeps its position, a new key is
appended at the end. -/
def alUpdate {α : Type} : List (String × α) → String → α → List (String × α)
  | [], key, v => [(key, v)]
  | (k, w) :: t, key, v =>
    if k = key then (key, v) :: t else (k, w) :: alUpdate t key v

/-- Model of `random.choice(l)`: the draw is parameterized by an index and
reduced modulo the length; an empty sequence raises `IndexError`. -/
def randomChoice {α : Type} (i : Nat) : List α → Except PyErr α
  | [] => Except.error PyErr.indexError
  | x :: t => Except.ok ((x :: t).get ⟨i % (x :: t).length, Nat.mod_lt _ (Nat.succ_pos _)⟩)

/-- Modelled from the spec: the fixed well-known meowrch directory of the
missing `vars.py` (`MEOWRCH_DIR`); spec §6 "a single YAML file at a fixed
well-known path" / "Managed directories". The concrete value is irrelevant
to every claim. -/
def MEOWRCH_DIR : String := "/home/user/.config/meowrch"

/-- Modelled from the spec: the assets directory of the missing `vars.py`
(`MEOWRCH_ASSETS`), holding the default theme icon (spec §4.2). -/
def MEOWRCH_ASSETS : String := "/home/user/.config/meowrch/assets"

/-- Modelled from the spec: the helper `utils/other.parse_wallpapers` is not
among the sources; per spec §4.4 "Path normalization for persistence",
stored wallpaper entries use the home-relative `~/...` shorthand, so parsing
expands a leading tilde against the home directory, yielding path values. -/
def parse_wallpapers (env : Env) (l : List String) : List String :=
  l.map (expand_user env.home)

namespace Config

/-- `Config.__load_yaml` (config.py:22-36): raises `NoConfigFile` when the
document file does not exist, otherwise returns the persisted document. -/
def load_yaml (env : Env) (doc : Document) : Except PyErr Document :=
  if env.configExists then Except.ok doc else Except.error PyErr.noConfigFile

/-- `Config.__dump_yaml` (config.py:38-51): raises `NoConfigFile` when the
document file does not exist, otherwise the argument becomes the persisted
document. -/
def dump_yaml (env : Env) (d : Document) : Except PyErr Document :=
  if env.configExists then Except.ok d else Except.error PyErr.noConfigFile

/-- `Config.get_current_wallpaper` (config.py:53-67). -/
def get_current_wallpaper (env : Env) (doc : Document) :
    Except PyErr (Option String) := do
  let data ← load_yaml env doc
  let w ←
    (if env.session = "x11" then Except.ok data.currentXwallpaper
     else if env.session = "wayland" then Except.ok data.currentWwallpaper
     else Except.error PyErr.invalidSession)
  match w with
  | none => return none
  | some s => return some (expand_user env.home (strTrim s))

/-- `Config.get_current_xtheme` (config.py:69-73). -/
def get_current_xtheme (env : Env) (doc : Document) :
    Except PyErr (Option String) := do
  let data ← load_yaml env doc
  return data.currentXtheme

/-- `Config.get_current_wtheme` (config.py:75-79). -/
def get_current_wtheme (env : Env) (doc : Document) :
    Except PyErr (Option String) := do
  let data ← load_yaml env doc
  return data.currentWtheme

/-- `Config._validate_theme` (config.py:81-112): keep only wallpapers that
exist on disk, drop the theme when none survive, resolve the icon. -/
def _validate_theme (env : Env) (theme_name : String) (wallpapers : List String) :
    Option Theme :=
  let icon := MEOWRCH_ASSETS ++ "/default-theme-icon.png"
  let surviving := wallpapers.filter (fun wp => env.fs wp)
  if surviving.length = 0 then none
  else
    let path_to_theme_icon :=
      MEOWRCH_DIR ++ "/themes/" ++ theme_name ++ "/" ++ theme_name ++ ".png"
    let icon := if env.fs path_to_theme_icon then path_to_theme_icon else icon
    some { name := theme_name, available_wallpapers := surviving, icon := icon }

/-- Merged wallpaper list handed to `_validate_theme` for one declared theme
(config.py:132-142): global custom wallpapers first, then the theme's own. -/
def theme_from_entry (env : Env) (custom : List String) (theme_name : String)
    (aw : List String) : Option Theme :=
  _validate_theme env theme_name (custom ++ parse_wallpapers env aw)

/-- The body of the `for theme_name, params in data['themes'].items()` loop
of `get_all_themes` (config.py:128-145), preserving document iteration
order: a null params mapping or an explicitly null wallpaper list is
skipped, a missing wallpaper key is treated as the empty list. -/
def build_themes (env : Env) (custom : List String) :
    List (String × Option ThemeParams) → List Theme
  | [] => []
  | (theme_name, params) :: rest =>
    match params with
    | none => build_themes env custom rest
    | some ps =>
      match ps.available_wallpapers with
      | some none => build_themes env custom rest
      | none =>
        match theme_from_entry env custom theme_name [] with
        | some t => t :: build_themes env custom rest
        | none => build_themes env custom rest
      | some (some l) =>
        match theme_from_entry env custom theme_name l with
        | some t => t :: build_themes env custom rest
        | none => build_themes env custom rest

/-- `Config.get_all_themes` (config.py:114-147). -/
def get_all_themes (env : Env) (doc : Document) : Except PyErr (List Theme) := do
  let data ← load_yaml env doc
  let custom := parse_wallpapers env (data.customWallpapers.getD [])
  match data.themes with
  | none => return []
  | some ts =>
    if ts.length < 1 then return []
    else return build_themes env custom ts

/-- `Config._set_theme` (config.py:149-163). -/
def _set_theme (env : Env) (doc : Document) (theme_name : String) :
    Except PyErr Document := do
  let data ← load_yaml env doc
  let data ←
    (if env.session = "x11" then Except.ok { data with currentXtheme := some theme_name }
     else if env.session = "wayland" then Except.ok { data with currentWtheme := some theme_name }
     else Except.error PyErr.invalidSession)
  dump_yaml env data

/-- Result of `Config._set_wallpaper`: the persisted document, whether the
`ln -sf` symlink command was attempted, and whether it succeeded. -/
structure SetWallpaperOut where
  doc : Document
  symlinkAttempted : Bool
  symlinkCreated : Bool
deriving DecidableEq

/-- `Config._set_wallpaper` (config.py:165-185): update the session's
pointer field, attempt the current-wallpaper symlink inside a try/except
whose failure is only logged (config.py:179-183), then dump the document. -/
def _set_wallpaper (env : Env) (eff : Eff) (doc : Document) (wallpaper_path : String) :
    Except PyErr SetWallpaperOut := do
  let data ← load_yaml env doc
  let data ←
    (if env.session = "x11" then Except.ok { data with currentXwallpaper := some wallpaper_path }
     else if env.session = "wayland" then Except.ok { data with currentWwallpaper := some wallpaper_path }
     else Except.error PyErr.invalidSession)
  let created := eff.symlinkOk
  let data ← dump_yaml env data
  return { doc := data, symlinkAttempted := true, symlinkCreated := created }

/-- `Config._add_wallpaper_to_theme` (config.py:187-217): raise `ValueError`
when the themes mapping or the theme key is absent; normalize a null params
mapping and a missing or null wallpaper list to `[]`; append the path and
dump only when it is not already present. -/
def _add_wallpaper_to_theme (env : Env) (doc : Document)
    (theme_name wallpaper_path : String) : Except PyErr Document := do
  let data ← load_yaml env doc
  match data.themes with
  | none => Except.error PyErr.valueError
  | some ts =>
    match alookup ts theme_name with
    | none => Except.error PyErr.valueError
    | some params =>
      let aw :=
        match params with
        | none => []
        | some ps => (ps.available_wallpapers.getD none).getD []
      if aw.contains wallpaper_path then return doc
      else
        let ts := alUpdate ts theme_name
          (some { available_wallpapers := some (some (aw ++ [wallpaper_path])) })
        dump_yaml env { data with themes := some ts }

/-- `Config._remove_wallpaper_from_theme` (config.py:219-252): remove the
path from the theme's list and from the global custom-wallpapers list when
present, dumping only when something changed. -/
def _remove_wallpaper_from_theme (env : Env) (doc : Document)
    (theme_name wallpaper_path : String) : Except PyErr Document := do
  let data ← load_yaml env doc
  let step1 :=
    match data.themes with
    | some ts =>
      match alookup ts theme_name with
      | some (some ps) =>
        match ps.available_wallpapers with
        | some (some aw) =>
          if aw.contains wallpaper_path then
            ({ data with themes := some (alUpdate ts theme_name
               (some { available_wallpapers := some (some (aw.erase wallpaper_path)) })) }, true)
          else (data, false)
        | _ => (data, false)
      | _ => (data, false)
    | none => (data, false)
  let data := step1.1
  let updated1 := step1.2
  let step2 :=
    match data.customWallpapers with
    | some cw =>
      if cw.contains wallpaper_path then
        ({ data with customWallpapers := some (cw.erase wallpaper_path) }, true)
      else (data, false)
    | none => (data, false)
  let data := step2.1
  let updated2 := step2.2
  if updated1 || updated2 then dump_yaml env data else return doc

end Config

/-- Outcome of the external rofi picker process (`selecting.RofiResponse`,
selecting.py:17-20): its exit code and the label read from stdout. -/
structure RofiResponse where
  exit_code : Int
  selected_item : String
deriving DecidableEq

/-- The dynamic type of the value returned by `Selector.select_wallpaper`
(selecting.py:96 returns `Optional[Union[Path, str]]`): either a `Path`
value or a plain `str` value. -/
inductive SelResult where
  | path (p : String)
  | str (s : String)
deriving DecidableEq

namespace Selector

/-- `Selector.select_wallpaper` (selecting.py:95-127), given the picker's
response: a non-zero exit code is cancellation; the label "Random Wallpaper"
draws a random wallpaper; the label "Add Wallpaper" returns the plain string
sentinel `ADD_WALLPAPER`; any other label is resolved to the first wallpaper
of the theme with that file name. Thumbnail generation (the rofi entry list)
only feeds the external picker and is not modelled. -/
def select_wallpaper (resp : RofiResponse) (eff : Eff) (theme : Theme) :
    Except PyErr (Option SelResult) :=
  if resp.exit_code ≠ 0 then Except.ok none
  else if resp.selected_item = "Random Wallpaper" then
    (randomChoice eff.randIdx theme.available_wallpapers).map
      (fun w => some (SelResult.path w))
  else if resp.selected_item = "Add Wallpaper" then
    Except.ok (some (SelResult.str "ADD_WALLPAPER"))
  else
    match theme.available_wallpapers.find?
        (fun p => path_name p == resp.selected_item) with
    | some p => Except.ok (some (SelResult.path p))
    | none => Except.ok none

end Selector

/-- In-memory state of `ThemeManager` (theming.py:18-21): the name-keyed
theme dictionary and the current theme. Python stores `current_theme` as a
direct reference to the same object held in the dictionary (theming.py:37,
71); since every held object is the dictionary entry under its own name, the
reference is modelled by the name key. -/
structure MState where
  themes : List (String × Theme)
  current : String
deriving DecidableEq

/-- Dereference the current-theme field. The default value models the read
of an uninitialized slot and is never reached in the modelled flows. -/
def MState.current_theme (st : MState) : Theme :=
  (alookup st.themes st.current).getD
    { name := "", available_wallpapers := [], icon := "" }

namespace ThemeManager

/-- `ThemeManager.set_wallpaper` (theming.py:289-349): dispatch on the
session to feh or swww; on tool failure or unsupported session, log and
return without persisting; on success call `Config._set_wallpaper`, whose
exceptions propagate. The wayland refresh-rate and cursor queries
(theming.py:293-322) are best-effort and affect only the swww command line,
so they are not modelled. -/
def set_wallpaper (env : Env) (eff : Eff) (st : MState) (doc : Document)
    (wallpaper : String) : Except PyErr (MState × Document) :=
  if env.session = "wayland" then
    if eff.toolOk then do
      let out ← Config._set_wallpaper env eff doc wallpaper
      return (st, out.doc)
    else return (st, doc)
  else if env.session = "x11" then
    if eff.toolOk then do
      let out ← Config._set_wallpaper env eff doc wallpaper
      return (st, out.doc)
    else return (st, doc)
  else return (st, doc)

/-- `ThemeManager.set_random_wallpaper` (theming.py:419-427): draw with
`random.choice` (raising `IndexError` on an empty list, theming.py:420),
then set the wallpaper when the drawn value is truthy, else only log and
notify. -/
def set_random_wallpaper (env : Env) (eff : Eff) (st : MState) (doc : Document) :
    Except PyErr (MState × Document) := do
  let wallpaper ← randomChoice eff.randIdx st.current_theme.available_wallpapers
  if wallpaper ≠ "" then set_wallpaper env eff st doc wallpaper
  else return (st, doc)

/-- The body of `ThemeManager.set_theme` once a `Theme` object is in hand
(theming.py:63-83). The theme-option appliers (theming.py:65-69) mutate
external dotfiles only and each runs inside try/except with failures logged,
so they do not affect this state. After persisting the theme pointer the
current wallpaper is re-validated: missing or non-existing or not a member
of the new theme's list triggers a random wallpaper. -/
def set_theme_obj (env : Env) (eff : Eff) (st : MState) (doc : Document)
    (theme : Theme) : Except PyErr (MState × Document) := do
  let st := { st with current := theme.name }
  let doc ← Config._set_theme env doc theme.name
  let current_wallpaper ← Config.get_current_wallpaper env doc
  match current_wallpaper with
  | none => set_random_wallpaper env eff st doc
  | some w =>
    if ¬ env.fs w then set_random_wallpaper env eff st doc
    else if ¬ st.current_theme.available_wallpapers.contains w then
      set_random_wallpaper env eff st doc
    else return (st, doc)

/-- The `Union[str, Theme]` argument of `ThemeManager.set_theme`. -/
inductive ThemeArg where
  | name (s : String)
  | obj (t : Theme)

/-- `ThemeManager.set_theme` (theming.py:47-83). When called with a string
that names no catalog theme, the code evaluates `theme.name` on the `str`
inside the error log f-string (theming.py:55), raising `AttributeError`. -/
def set_theme (env : Env) (eff : Eff) (st : MState) (doc : Document) :
    ThemeArg → Except PyErr (MState × Document)
  | ThemeArg.name s =>
    match alookup st.themes s with
    | none => Except.error PyErr.attributeError
    | some t => set_theme_obj env eff st doc t
  | ThemeArg.obj t => set_theme_obj env eff st doc t

/-- `ThemeManager.set_random_theme` (theming.py:89-98). -/
def set_random_theme (env : Env) (eff : Eff) (st : MState) (doc : Document) :
    Except PyErr (MState × Document) := do
  if st.themes.length < 1 then Except.error PyErr.noThemesToInstall
  else do
    let t ← randomChoice eff.randIdx (st.themes.map Prod.snd)
    set_theme env eff st doc (ThemeArg.name t.name)

/-- `ThemeManager.add_wallpaper_to_theme` (theming.py:112-179): validate the
file and its extension, fail on an unknown theme, succeed without change
when the wallpaper is already present, otherwise append in memory, persist
via the store and roll the append back (`list.remove`, theming.py:177) when
the store raises. -/
def add_wallpaper_to_theme (env : Env) (st : MState) (doc : Document)
    (wallpaper : String) (themeName : Option String) : Bool × MState × Document :=
  let theme_name := themeName.getD st.current
  let wallpaper_path := expand_user env.home wallpaper
  if ¬ env.fs wallpaper_path then (false, st, doc)
  else if ¬ has_valid_ext wallpaper_path then (false, st, doc)
  else
    match alookup st.themes theme_name with
    | none => (false, st, doc)
    | some theme =>
      if theme.available_wallpapers.contains wallpaper_path then (true, st, doc)
      else
        let theme1 := { theme with
          available_wallpapers := theme.available_wallpapers ++ [wallpaper_path] }
        let st1 := { st with themes := alUpdate st.themes theme_name theme1 }
        let config_path := to_config_path env.home wallpaper_path
        match Config._add_wallpaper_to_theme env doc theme_name config_path with
        | Except.ok doc1 => (true, st1, doc1)
        | Except.error _ =>
          let theme2 := { theme1 with
            available_wallpapers := theme1.available_wallpapers.erase wallpaper_path }
          (false, { st1 with themes := alUpdate st1.themes theme_name theme2 }, doc)

/-- `ThemeManager.remove_wallpaper_from_theme` (theming.py:181-258): fail on
an unknown theme, an absent wallpaper, or the last wallpaper of the theme;
otherwise remove in memory and persist. The whole persistence block runs in
one try/except (theming.py:242-258): an exception after the store dump
(from `get_current_wallpaper` or `set_random_wallpaper`) still appends the
wallpaper back in memory and returns failure, while the already persisted
removal stays. Cached-thumbnail deletion (theming.py:222-229) is a guarded
filesystem side effect outside this state. -/
def remove_wallpaper_from_theme (env : Env) (eff : Eff) (st : MState)
    (doc : Document) (wallpaper : String) (themeName : Option String) :
    Bool × MState × Document :=
  let theme_name := themeName.getD st.current
  let wallpaper_path := expand_user env.home wallpaper
  match alookup st.themes theme_name with
  | none => (false, st, doc)
  | some theme =>
    if ¬ theme.available_wallpapers.contains wallpaper_path then (false, st, doc)
    else if theme.available_wallpapers.length ≤ 1 then (false, st, doc)
    else
      let theme1 := { theme with
        available_wallpapers := theme.available_wallpapers.erase wallpaper_path }
      let st1 := { st with themes := alUpdate st.themes theme_name theme1 }
      let theme2 := { theme1 with
        available_wallpapers := theme1.available_wallpapers ++ [wallpaper_path] }
      let stR := { st1 with themes := alUpdate st1.themes theme_name theme2 }
      let config_path := to_config_path env.home wallpaper_path
      match Config._remove_wallpaper_from_theme env doc theme_name config_path with
      | Except.error _ => (false, stR, doc)
      | Except.ok doc1 =>
        match Config.get_current_wallpaper env doc1 with
        | Except.error _ => (false, stR, doc1)
        | Except.ok current_wallpaper =>
          match current_wallpaper with
          | some c =>
            if expand_user env.home c = wallpaper_path then
              match set_random_wallpaper env eff st1 doc1 with
              | Except.ok (st2, doc2) => (true, st2, doc2)
              | Except.error _ => (false, stR, doc1)
            else (true, st1, doc1)
          | none => (true, st1, doc1)

/-- Result of `ThemeManager.__init__`: the constructed state, the persisted
document, and whether the construction-time wallpaper validation fell back
to `set_random_wallpaper` (theming.py:41). -/
structure InitOut where
  st : MState
  doc : Document
  wallpaperFallback : Bool
deriving DecidableEq

/-- The dict comprehension `{theme.name: theme for theme in ...}`
(theming.py:24): later duplicates overwrite in place. -/
def mk_dict (ts : List Theme) : List (String × Theme) :=
  ts.foldl (fun acc t => alUpdate acc t.name t) []

/-- `ThemeManager.__init__` (theming.py:23-44): build the catalog, raise on
an empty one, read the session's theme pointer; when it names a catalog
entry adopt it and fall back to a random wallpaper when the wallpaper
pointer is missing or does not exist on disk; otherwise fall back to a
random theme. -/
def mk (env : Env) (eff : Eff) (doc : Document) : Except PyErr InitOut := do
  let themeList ← Config.get_all_themes env doc
  let themes := mk_dict themeList
  if themes.length < 1 then Except.error PyErr.noThemesToInstall
  else do
    let cur ←
      (if env.session = "x11" then Config.get_current_xtheme env doc
       else if env.session = "wayland" then Config.get_current_wtheme env doc
       else Except.error PyErr.invalidSession)
    match cur with
    | some c =>
      match alookup themes c with
      | some _ =>
        let st : MState := { themes := themes, current := c }
        let wallpaper ← Config.get_current_wallpaper env doc
        match wallpaper with
        | none => do
          let (st, doc) ← set_random_wallpaper env eff st doc
          return { st := st, doc := doc, wallpaperFallback := true }
        | some w =>
          if ¬ env.fs w then do
            let (st, doc) ← set_random_wallpaper env eff st doc
            return { st := st, doc := doc, wallpaperFallback := true }
          else return { st := st, doc := doc, wallpaperFallback := false }
      | none => do
        let st : MState := { themes := themes, current := "" }
        let (st, doc) ← set_random_theme env eff st doc
        return { st := st, doc := doc, wallpaperFallback := false }
    | none => do
      let st : MState := { themes := themes, current := "" }
      let (st, doc) ← set_random_theme env eff st doc
      return { st := st, doc := doc, wallpaperFallback := false }

end ThemeManager

/-- Effective stored wallpaper list of a declared theme in the document, as
the store mutators read it (missing keys and nulls count as empty). -/
def params_aw (p : Option ThemeParams) : List String :=
  match p with
  | none => []
  | some ps => (ps.available_wallpapers.getD none).getD []

/-- Effective stored wallpaper list of a named theme in the document. -/
def doc_theme_wallpapers (doc : Document) (theme_name : String) : List String :=
  match doc.themes with
  | none => []
  | some ts =>
    match alookup ts theme_name with
    | none => []
    | some p => params_aw p

/-- The document with the session's current-wallpaper pointer replaced, the
pure shape persisted by `Config._set_wallpaper` on a recognized session. -/
def stored_ptr_doc (env : Env) (doc : Document) (w : String) : Document :=
  if env.session = "x11" then { doc with currentXwallpaper := some w }
  else if env.session = "wayland" then { doc with currentWwallpaper := some w }
  else doc

/-- The session's current-wallpaper pointer field of the document. -/
def session_wallpaper_ptr (env : Env) (doc : Document) : Option String :=
  if env.session = "x11" then doc.currentXwallpaper
  else if env.session = "wayland" then doc.currentWwallpaper
  else none

section Lemmas

theorem alookup_alUpdate_self {α : Type} (l : List (String × α)) (k : String) (v : α) :
    alookup (alUpdate l k v) k = some v := by
  induction l with
  | nil => simp [alookup, alUpdate]
  | cons h t ih =>
    obtain ⟨k', w⟩ := h
    by_cases hk : k' = k <;> simp [alookup, alUpdate, hk, ih]

theorem alookup_alUpdate_ne {α : Type} (l : List (String × α)) (k k' : String) (v : α)
    (h : k' ≠ k) : alookup (alUpdate l k v) k' = alookup l k' := by
  induction l with
  | nil => simp [alookup, alUpdate, Ne.symm h]
  | cons hd t ih =>
    obtain ⟨k0, w⟩ := hd
    by_cases hk : k0 = k
    · subst hk
      simp [alookup, alUpdate, Ne.symm h]
    · by_cases hk' : k0 = k' <;> simp [alookup, alUpdate, hk, hk', ih, h]

theorem alUpdate_alUpdate {α : Type} (l : List (String × α)) (k : String) (v w : α) :
    alUpdate (alUpdate l k v) k w = alUpdate l k w := by
  induction l with
  | nil => simp [alUpdate]
  | cons hd t ih =>
    obtain ⟨k0, u⟩ := hd
    by_cases hk : k0 = k <;> simp [alUpdate, hk, ih]

theorem alUpdate_self {α : Type} (l : List (String × α)) (k : String) (v : α)
    (h : alookup l k = some v) : alUpdate l k v = l := by
  induction l with
  | nil => simp [alookup] at h
  | cons hd t ih =>
    obtain ⟨k0, u⟩ := hd
    by_cases hk : k0 = k
    · subst hk
      simp [alookup] at h
      simp [alUpdate, h]
    · simp [alookup, hk] at h
      simp [alUpdate, hk, ih h]

theorem contains_false_not_mem {l : List String} {x : String}
    (h : l.contains x = false) : x ∉ l := by
  simpa using h

theorem contains_true_mem {l : List String} {x : String}
    (h : l.contains x = true) : x ∈ l := by
  simpa using h

theorem erase_append_singleton {l : List String} {x : String}
    (h : x ∉ l) : (l ++ [x]).erase x = l := by
  rw [List.erase_append_right _ h]
  simp

theorem randomChoice_ok_state {α : Type} (i : Nat) (l : List α) (x : α)
    (h : randomChoice i l = Except.ok x) : x ∈ l := by
  cases l with
  | nil => simp [randomChoice] at h
  | cons a t =>
    simp only [randomChoice, Except.ok.injEq] at h
    subst h
    exact List.get_mem _ _ _

theorem randomChoice_ok_of_ne {α : Type} (i : Nat) (l : List α) (h : l ≠ []) :
    ∃ x, randomChoice i l = Except.ok x ∧ x ∈ l := by
  cases l with
  | nil => exact absurd rfl h
  | cons a t => exact ⟨_, rfl, List.get_mem _ _ _⟩

theorem set_wallpaper_store_eq (env : Env) (eff : Eff) (doc : Document) (w : String)
    (hc : env.configExists = true) :
    Config._set_wallpaper env eff doc w =
      (if env.session = "x11" ∨ env.session = "wayland" then
        Except.ok (Config.SetWallpaperOut.mk (stored_ptr_doc env doc w) true eff.symlinkOk)
      else Except.error PyErr.invalidSession) := by
  unfold Config._set_wallpaper Config.load_yaml Config.dump_yaml stored_ptr_doc
  by_cases h1 : env.session = "x11" <;> by_cases h2 : env.session = "wayland" <;>
    simp [hc, h1, h2, Bind.bind, Except.bind, Pure.pure, Except.pure]

theorem get_current_wallpaper_eq (env : Env) (doc : Document)
    (hs : env.session = "x11" ∨ env.session = "wayland") (hc : env.configExists = true) :
    Config.get_current_wallpaper env doc =
      Except.ok ((session_wallpaper_ptr env doc).map
        (fun s => expand_user env.home (strTrim s))) := by
  unfold Config.get_current_wallpaper Config.load_yaml session_wallpaper_ptr
  rcases hs with h | h
  · cases hw : doc.currentXwallpaper <;> simp [hc, h, Bind.bind, Except.bind, Pure.pure, Except.pure, hw]
  · by_cases h1 : env.session = "x11"
    · cases hw : doc.currentXwallpaper <;> simp [hc, h1, Bind.bind, Except.bind, Pure.pure, Except.pure, hw]
    · cases hw : doc.currentWwallpaper <;> simp [hc, h1, h, Bind.bind, Except.bind, Pure.pure, Except.pure, hw]

theorem set_wallpaper_ok (env : Env) (eff : Eff) (st : MState) (doc : Document)
    (w : String) (hc : env.configExists = true) :
    ∃ d2, ThemeManager.set_wallpaper env eff st doc w = Except.ok (st, d2) ∧
      d2.themes = doc.themes ∧ d2.customWallpapers = doc.customWallpapers := by
  unfold ThemeManager.set_wallpaper
  by_cases h1 : env.session = "wayland" <;> by_cases h2 : env.session = "x11" <;>
    cases ht : eff.toolOk <;>
      simp [h1, h2, ht, set_wallpaper_store_eq env eff doc w hc, Bind.bind, Except.bind, Pure.pure, Except.pure, stored_ptr_doc]

theorem set_wallpaper_state (env : Env) (eff : Eff) (st : MState) (doc : Document)
    (w : String) (r : MState × Document)
    (h : ThemeManager.set_wallpaper env eff st doc w = Except.ok r) : r.1 = st := by
  unfold ThemeManager.set_wallpaper at h
  cases hs : Config._set_wallpaper env eff doc w with
  | ok o =>
    by_cases h1 : env.session = "wayland" <;> by_cases h2 : env.session = "x11" <;>
      cases ht : eff.toolOk <;>
      simp [h1, h2, ht, hs, Bind.bind, Except.bind, Pure.pure, Except.pure] at h <;>
      simp [← h]
  | error e =>
    by_cases h1 : env.session = "wayland" <;> by_cases h2 : env.session = "x11" <;>
      cases ht : eff.toolOk <;>
      simp [h1, h2, ht, hs, Bind.bind, Except.bind, Pure.pure, Except.pure] at h <;>
      simp [← h]

theorem set_random_wallpaper_state (env : Env) (eff : Eff) (st : MState) (doc : Document)
    (r : MState × Document)
    (h : ThemeManager.set_random_wallpaper env eff st doc = Except.ok r) : r.1 = st := by
  unfold ThemeManager.set_random_wallpaper at h
  cases hr : randomChoice eff.randIdx st.current_theme.available_wallpapers with
  | error e => rw [hr] at h; simp [Bind.bind, Except.bind] at h
  | ok w =>
    rw [hr] at h
    simp only [Bind.bind, Except.bind] at h
    by_cases hw : w = ""
    · simp [hw, Pure.pure, Except.pure] at h
      simp [← h]
    · simp [hw] at h
      exact set_wallpaper_state env eff st doc w r h

theorem set_wallpaper_eq (env : Env) (eff : Eff) (st : MState) (doc : Document)
    (w : String) (hs : env.session = "x11" ∨ env.session = "wayland")
    (hc : env.configExists = true) :
    ThemeManager.set_wallpaper env eff st doc w =
      Except.ok (st, if eff.toolOk then stored_ptr_doc env doc w else doc) := by
  unfold ThemeManager.set_wallpaper
  cases ht : eff.toolOk <;> rcases hs with h | h <;>
    simp [h, ht, set_wallpaper_store_eq env eff doc w hc, Bind.bind, Except.bind,
      Pure.pure, Except.pure]

theorem set_random_wallpaper_ok (env : Env) (eff : Eff) (st : MState) (doc : Document)
    (hc : env.configExists = true)
    (hne : st.current_theme.available_wallpapers ≠ []) :
    ∃ d2, ThemeManager.set_random_wallpaper env eff st doc = Except.ok (st, d2) ∧
      d2.themes = doc.themes ∧ d2.customWallpapers = doc.customWallpapers := by
  unfold ThemeManager.set_random_wallpaper
  obtain ⟨w, hw, _⟩ := randomChoice_ok_of_ne eff.randIdx _ hne
  rw [hw]
  simp only [Bind.bind, Except.bind]
  by_cases hz : w = ""
  · exact ⟨doc, by simp [hz, Pure.pure, Except.pure], rfl, rfl⟩
  · simpa [hz] using set_wallpaper_ok env eff st doc w hc

end Lemmas

section Fixtures

/-- Concrete filesystem used by witnesses: three image files, no icon file. -/
def fsMain : String → Bool :=
  fun p => ["/h/w/a.png", "/h/w/b.png", "/other/c.png"].contains p

/-- Concrete x11 environment used by witnesses. -/
def envMain : Env :=
  { session := "x11", home := "/h", fs := fsMain, configExists := true }

/-- Stored params of the concrete theme dark. -/
def darkParams : Option ThemeParams :=
  some (ThemeParams.mk (some (some ["~/w/a.png", "~/w/b.png"])))

/-- Concrete persisted document used by witnesses. -/
def docMain : Document :=
  { currentXtheme := some "dark", currentXwallpaper := some "/h/w/b.png",
    themes := some [("dark", darkParams)] }

/-- The materialization of dark under `envMain`. -/
def thDark : Theme :=
  { name := "dark", available_wallpapers := ["/h/w/a.png", "/h/w/b.png"],
    icon := MEOWRCH_ASSETS ++ "/default-theme-icon.png" }

/-- The materialization of dark when only `a.png` exists. -/
def thDarkOne : Theme :=
  { name := "dark", available_wallpapers := ["/h/w/a.png"],
    icon := MEOWRCH_ASSETS ++ "/default-theme-icon.png" }

/-- Manager state holding dark with two wallpapers. -/
def stMain : MState := MState.mk [("dark", thDark)] "dark"

/-- Manager state holding dark with a single wallpaper. -/
def stOne : MState := MState.mk [("dark", thDarkOne)] "dark"

/-- Manager state whose current theme has an empty wallpaper list. -/
def stEmpty : MState := MState.mk [("e", Theme.mk "e" [] "")] "e"

/-- Manager state whose current theme has exactly one wallpaper. -/
def stSingle : MState := MState.mk [("s", Theme.mk "s" ["/h/w/a.png"] "")] "s"

/-- `docMain` with the x11 wallpaper pointer moved to `a.png`. -/
def docMainA : Document := { docMain with currentXwallpaper := some "/h/w/a.png" }

end Fixtures

/-- C7: calling `set_theme` with a string that names no catalog theme does
not return normally with a logged error: evaluating the log message applies
`.name` to the `str` argument (theming.py:55), so the call raises
`AttributeError` instead of being a no-op. -/
theorem set_theme_unknown_name_raises :
    ThemeManager.set_theme envMain (Eff.mk true true 0) stMain docMain
      (ThemeManager.ThemeArg.name "ghost") = Except.error PyErr.attributeError := by
  decide

/-- C8: `set_random_wallpaper` evaluates `random.choice` before the
emptiness guard (theming.py:420), so with an empty current wallpaper list it
raises `IndexError` instead of alerting; on a singleton list every draw
deterministically applies the single element and persists it. -/
theorem set_random_wallpaper_empty_raises :
    ThemeManager.set_random_wallpaper envMain (Eff.mk true true 0) stEmpty docMain =
      Except.error PyErr.indexError ∧
    ∀ i : Nat, ThemeManager.set_random_wallpaper envMain (Eff.mk true true i) stSingle docMain =
      Except.ok (stSingle, docMainA) := by
  constructor
  · decide
  · intro i
    have h1 : randomChoice i stSingle.current_theme.available_wallpapers =
        Except.ok "/h/w/a.png" := by
      show randomChoice i ["/h/w/a.png"] = Except.ok "/h/w/a.png"
      simp [randomChoice, Nat.mod_one]
    unfold ThemeManager.set_random_wallpaper
    rw [h1]
    simp only [Bind.bind, Except.bind]
    rw [if_pos (by decide : ("/h/w/a.png" : String) ≠ "")]
    rw [set_wallpaper_eq envMain (Eff.mk true true i) stSingle docMain "/h/w/a.png"
      (Or.inl rfl) rfl]
    rfl

/-- C9 counterexample: the selector's result is not collision-free — for a
theme holding a wallpaper whose file name is literally Add Wallpaper, the
picker label of that wallpaper equals the synthetic add entry, and selecting
it returns the `ADD_WALLPAPER` string sentinel instead of the wallpaper. -/
theorem select_wallpaper_sentinel_collision_cex :
    path_name "/w/Add Wallpaper" = "Add Wallpaper" ∧
    Selector.select_wallpaper (RofiResponse.mk 0 "Add Wallpaper") (Eff.mk true true 0)
      (Theme.mk "d" ["/w/Add Wallpaper"] "") =
      Except.ok (some (SelResult.str "ADD_WALLPAPER")) := by
  decide

/-- C9 amended: when no wallpaper of the theme has the file name
Add Wallpaper, the string sentinel is returned exactly for the synthetic add
entry and never for a concretely chosen wallpaper, and every returned `Path`
value is one of the theme's wallpapers; a wallpaper literally named
Add Wallpaper is instead resolved to the sentinel. -/
theorem select_wallpaper_sentinel_amended (resp : RofiResponse) (eff : Eff) (theme : Theme)
    (hno : ∀ p ∈ theme.available_wallpapers, path_name p ≠ "Add Wallpaper") :
    (∀ s, Selector.select_wallpaper resp eff theme = Except.ok (some (SelResult.str s)) →
      s = "ADD_WALLPAPER" ∧ resp.selected_item = "Add Wallpaper" ∧
        ∀ p ∈ theme.available_wallpapers, path_name p ≠ resp.selected_item) ∧
    (∀ p, Selector.select_wallpaper resp eff theme = Except.ok (some (SelResult.path p)) →
      p ∈ theme.available_wallpapers) := by
  unfold Selector.select_wallpaper
  by_cases h0 : resp.exit_code ≠ 0
  · rw [if_pos h0]
    constructor <;> intro x hx <;> simp at hx
  · rw [if_neg h0]
    by_cases h1 : resp.selected_item = "Random Wallpaper"
    · rw [if_pos h1]
      constructor
      · intro s hs
        cases hr : randomChoice eff.randIdx theme.available_wallpapers <;>
          simp [hr, Except.map] at hs
      · intro p hp
        cases hr : randomChoice eff.randIdx theme.available_wallpapers with
        | error e => simp [hr, Except.map] at hp
        | ok w =>
          simp [hr, Except.map] at hp
          rw [← hp]
          exact randomChoice_ok_state _ _ _ hr
    · rw [if_neg h1]
      by_cases h2 : resp.selected_item = "Add Wallpaper"
      · rw [if_pos h2]
        constructor
        · intro s hs
          simp at hs
          refine ⟨hs.symm, h2, fun p hp => ?_⟩
          rw [h2]
          exact hno p hp
        · intro p hp
          simp at hp
      · rw [if_neg h2]
        cases hf : theme.available_wallpapers.find?
            (fun p => path_name p == resp.selected_item) with
        | none =>
          constructor <;> intro x hx <;> simp at hx
        | some q =>
          constructor
          · intro s hs
            simp at hs
          · intro p hp
            simp at hp
            rw [← hp]
            exact List.mem_of_find?_eq_some hf

/-- C9 amended witness: the amended theorem applied to a concrete theme
without colliding names; the chosen label resolves to a theme wallpaper. -/
theorem select_wallpaper_sentinel_amended_witness :
    (∀ p ∈ thDark.available_wallpapers, path_name p ≠ "Add Wallpaper") ∧
    (∀ p, Selector.select_wallpaper (RofiResponse.mk 0 "b.png") (Eff.mk true true 0) thDark =
      Except.ok (some (SelResult.path p)) → p ∈ thDark.available_wallpapers) :=
  ⟨by decide,
   (select_wallpaper_sentinel_amended (RofiResponse.mk 0 "b.png") (Eff.mk true true 0) thDark
     (by decide)).2⟩

/-- C3 counterexample: at construction the current-wallpaper pointer is only
checked for existence on disk, not for membership in the adopted theme's
wallpaper list — with the pointer naming an existing file outside the
theme's list, initialization keeps it and never calls
`set_random_wallpaper`. -/
theorem init_membership_not_checked_cex :
    fsMain "/other/c.png" = true ∧
    thDark.available_wallpapers.contains "/other/c.png" = false ∧
    ThemeManager.mk envMain (Eff.mk true true 0)
      { docMain with currentXwallpaper := some "/other/c.png" } =
      Except.ok (ThemeManager.InitOut.mk stMain
        { docMain with currentXwallpaper := some "/other/c.png" } false) := by
  decide

theorem validate_theme_sound (env : Env) (n : String) (ws : List String) (t : Theme)
    (h : Config._validate_theme env n ws = some t) :
    t.available_wallpapers ≠ [] ∧ ∀ p ∈ t.available_wallpapers, env.fs p = true := by
  unfold Config._validate_theme at h
  by_cases hz : (ws.filter (fun wp => env.fs wp)).length = 0
  · simp [hz] at h
  · simp only [hz, if_false, ite_false, Option.some.injEq] at h
    subst h
    refine ⟨?_, ?_⟩
    · intro hnil
      exact hz (by simpa using congrArg List.length hnil)
    · intro p hp
      exact List.of_mem_filter hp

theorem build_themes_valid (env : Env) (custom : List String)
    (l : List (String × Option ThemeParams)) :
    ∀ t ∈ Config.build_themes env custom l,
      t.available_wallpapers ≠ [] ∧ ∀ p ∈ t.available_wallpapers, env.fs p = true := by
  induction l with
  | nil => simp [Config.build_themes]
  | cons hd rest ih =>
    obtain ⟨name, params⟩ := hd
    cases params with
    | none => simpa [Config.build_themes] using ih
    | some ps =>
      cases hps : ps.available_wallpapers with
      | none =>
        cases hv : Config.theme_from_entry env custom name [] with
        | none => simpa [Config.build_themes, hps, hv] using ih
        | some t0 =>
          intro t ht
          simp only [Config.build_themes, hps, hv] at ht
          rcases List.mem_cons.mp ht with h | h
          · subst h
            exact validate_theme_sound env name _ t hv
          · exact ih t h
      | some aw2 =>
        cases aw2 with
        | none => simpa [Config.build_themes, hps] using ih
        | some lst =>
          cases hv : Config.theme_from_entry env custom name lst with
          | none => simpa [Config.build_themes, hps, hv] using ih
          | some t0 =>
            intro t ht
            simp only [Config.build_themes, hps, hv] at ht
            rcases List.mem_cons.mp ht with h | h
            · subst h
              exact validate_theme_sound env name _ t hv
            · exact ih t h

/-- C5: building the catalog from any document never fails (with the config
file present), and every materialized theme has a non-empty wallpaper list
all of whose paths exist on disk; a declared theme whose merged list has no
existing paths is simply absent from the result. -/
theorem catalog_themes_valid (env : Env) (doc : Document)
    (hc : env.configExists = true) :
    ∃ ts, Config.get_all_themes env doc = Except.ok ts ∧
      ∀ t ∈ ts, t.available_wallpapers ≠ [] ∧
        ∀ p ∈ t.available_wallpapers, env.fs p = true := by
  unfold Config.get_all_themes Config.load_yaml
  rw [hc]
  simp only [if_true, Bind.bind, Except.bind]
  cases hth : doc.themes with
  | none => exact ⟨[], by simp [Pure.pure, Except.pure], by simp⟩
  | some ts0 =>
    by_cases hlen : ts0.length < 1
    · exact ⟨[], by simp [hlen, Pure.pure, Except.pure], by simp⟩
    · refine ⟨Config.build_themes env
        (parse_wallpapers env (doc.customWallpapers.getD [])) ts0, ?_, ?_⟩
      · simp [hlen, Pure.pure, Except.pure]
      · exact build_themes_valid env _ ts0

/-- C5 witness: the theorem applied to the concrete environment and document
of the fixtures. -/
theorem catalog_themes_valid_witness :
    envMain.configExists = true ∧
    ∃ ts, Config.get_all_themes envMain docMain = Except.ok ts ∧
      ∀ t ∈ ts, t.available_wallpapers ≠ [] ∧
        ∀ p ∈ t.available_wallpapers, envMain.fs p = true :=
  ⟨rfl, catalog_themes_valid envMain docMain rfl⟩

/-- C10: on a recognized session with the config file present, the store's
wallpaper setter attempts the current-wallpaper symlink and persists the new
pointer with the very same resulting document whether the symlink command
succeeds or fails — a symlink failure is logged only and never prevents or
alters persistence. -/
theorem store_set_wallpaper_symlink_best_effort (env : Env) (eff : Eff)
    (doc : Document) (w : String)
    (hs : env.session = "x11" ∨ env.session = "wayland")
    (hc : env.configExists = true) :
    ∀ b : Bool,
      Config._set_wallpaper env (Eff.mk eff.toolOk b eff.randIdx) doc w =
        Except.ok (Config.SetWallpaperOut.mk (stored_ptr_doc env doc w) true b) := by
  intro b
  rw [set_wallpaper_store_eq env (Eff.mk eff.toolOk b eff.randIdx) doc w hc]
  rw [if_pos hs]

/-- C10 witness: the theorem at the concrete fixtures with a failing symlink
command; persistence happens with the same document as on success. -/
theorem store_set_wallpaper_symlink_best_effort_witness :
    (envMain.session = "x11" ∨ envMain.session = "wayland") ∧
    envMain.configExists = true ∧
    Config._set_wallpaper envMain (Eff.mk true false 0) docMain "/h/w/a.png" =
      Except.ok (Config.SetWallpaperOut.mk
        (stored_ptr_doc envMain docMain "/h/w/a.png") true false) :=
  ⟨Or.inl rfl, rfl,
   store_set_wallpaper_symlink_best_effort envMain (Eff.mk true true 0) docMain
     "/h/w/a.png" (Or.inl rfl) rfl false⟩

/-- C4: on a recognized session with the config file present, `set_wallpaper`
returns normally and persists the new current-wallpaper pointer exactly when
the external tool succeeds: on tool failure the persisted document is
unchanged, on success it is the input document with the session's pointer
set to the new wallpaper. -/
theorem set_wallpaper_persists_iff_tool_ok (env : Env) (eff : Eff) (st : MState)
    (doc : Document) (w : String)
    (hs : env.session = "x11" ∨ env.session = "wayland")
    (hc : env.configExists = true) :
    ThemeManager.set_wallpaper env eff st doc w =
      Except.ok (st, if eff.toolOk then stored_ptr_doc env doc w else doc) ∧
    session_wallpaper_ptr env (stored_ptr_doc env doc w) = some w := by
  refine ⟨set_wallpaper_eq env eff st doc w hs hc, ?_⟩
  unfold session_wallpaper_ptr stored_ptr_doc
  rcases hs with h | h <;> simp [h]

/-- C4 witness: the theorem at the concrete fixtures with a failing tool;
the persisted document is unchanged. -/
theorem set_wallpaper_persists_iff_tool_ok_witness :
    (envMain.session = "x11" ∨ envMain.session = "wayland") ∧
    envMain.configExists = true ∧
    (ThemeManager.set_wallpaper envMain (Eff.mk false true 0) stMain docMain "/h/w/a.png" =
      Except.ok (stMain,
        if (Eff.mk false true 0 : Eff).toolOk then stored_ptr_doc envMain docMain "/h/w/a.png"
        else docMain) ∧
     session_wallpaper_ptr envMain (stored_ptr_doc envMain docMain "/h/w/a.png") =
       some "/h/w/a.png") :=
  ⟨Or.inl rfl, rfl,
   set_wallpaper_persists_iff_tool_ok envMain (Eff.mk false true 0) stMain docMain
     "/h/w/a.png" (Or.inl rfl) rfl⟩

/-- True exactly when the Python call modelled by the `Except` value raised. -/
def raised {e a : Type} : Except e a → Bool
  | Except.ok _ => false
  | Except.error _ => true

theorem remove_state_cases (env : Env) (eff : Eff) (st : MState) (doc : Document)
    (w : String) (tno : Option String) :
    (ThemeManager.remove_wallpaper_from_theme env eff st doc w tno).2.1.themes = st.themes ∨
    ∃ th, alookup st.themes (tno.getD st.current) = some th ∧
      th.available_wallpapers.contains (expand_user env.home w) = true ∧
      ¬ th.available_wallpapers.length ≤ 1 ∧
      ((ThemeManager.remove_wallpaper_from_theme env eff st doc w tno).2.1.themes =
         alUpdate st.themes (tno.getD st.current)
           { th with available_wallpapers :=
               th.available_wallpapers.erase (expand_user env.home w) } ∨
       (ThemeManager.remove_wallpaper_from_theme env eff st doc w tno).2.1.themes =
         alUpdate st.themes (tno.getD st.current)
           { th with available_wallpapers :=
               th.available_wallpapers.erase (expand_user env.home w) ++
                 [expand_user env.home w] }) := by
  unfold ThemeManager.remove_wallpaper_from_theme
  cases hl : alookup st.themes (tno.getD st.current) with
  | none => left; simp [hl]
  | some th =>
    by_cases hcont : th.available_wallpapers.contains (expand_user env.home w) = true
    · by_cases hlen : th.available_wallpapers.length ≤ 1
      · left; simp [hl, hcont, hlen]
      · right
        refine ⟨th, rfl, hcont, hlen, ?_⟩
        simp only [hl, hcont, hlen, not_true, not_false_iff, if_false, if_true,
          ite_true, ite_false]
        cases hs : Config._remove_wallpaper_from_theme env doc (tno.getD st.current)
            (to_config_path env.home (expand_user env.home w)) with
        | error e =>
          right
          simp [hl, hcont, hlen, hs, alUpdate_alUpdate]
        | ok doc1 =>
          cases hcw : Config.get_current_wallpaper env doc1 with
          | error e =>
            right
            simp [hl, hcont, hlen, hs, hcw, alUpdate_alUpdate]
          | ok cw =>
            cases cw with
            | none => left; simp [hl, hcont, hlen, hs, hcw]
            | some c =>
              by_cases hceq : expand_user env.home c = expand_user env.home w
              · cases hr : ThemeManager.set_random_wallpaper env eff
                    (MState.mk (alUpdate st.themes (tno.getD st.current)
                      { th with available_wallpapers :=
                          th.available_wallpapers.erase (expand_user env.home w) })
                      st.current) doc1 with
                | ok pr =>
                  left
                  have hst := set_random_wallpaper_state env eff _ doc1 pr hr
                  simp [hl, hcont, hlen, hs, hcw, hceq, hr, hst]
                | error e =>
                  right
                  simp [hl, hcont, hlen, hs, hcw, hceq, hr, alUpdate_alUpdate]
              · left
                simp [hl, hcont, hlen, hs, hcw, hceq]
    · left
      have hnm : expand_user env.home w ∉ th.available_wallpapers := by
        intro hm
        exact hcont (by simpa using hm)
      simp [hl, hnm]

/-- C1: removing a theme's only remaining wallpaper is refused with failure
and leaves both the in-memory state and the persisted document untouched;
and more generally no `remove_wallpaper_from_theme` call ever turns a
non-empty in-memory wallpaper list of any theme into an empty one. -/
theorem remove_last_wallpaper_refused (env : Env) (eff : Eff) (st : MState)
    (doc : Document) (w : String) (tno : Option String) :
    (∀ th, alookup st.themes (tno.getD st.current) = some th →
      th.available_wallpapers = [expand_user env.home w] →
      ThemeManager.remove_wallpaper_from_theme env eff st doc w tno = (false, st, doc)) ∧
    (∀ n th, alookup st.themes n = some th → th.available_wallpapers ≠ [] →
      ∀ th', alookup
          (ThemeManager.remove_wallpaper_from_theme env eff st doc w tno).2.1.themes n =
            some th' →
        th'.available_wallpapers ≠ []) := by
  constructor
  · intro th hth hone
    unfold ThemeManager.remove_wallpaper_from_theme
    simp [hth, hone]
  · intro n th hn hne th' h'
    rcases remove_state_cases env eff st doc w tno with hsame | ⟨t0, hl0, hc0, hlen0, hcase⟩
    · rw [hsame] at h'
      rw [hn] at h'
      cases h'
      exact hne
    · by_cases hntn : n = tno.getD st.current
      · subst hntn
        have hmem0 : expand_user env.home w ∈ t0.available_wallpapers :=
          contains_true_mem hc0
        have hlen2 : 2 ≤ t0.available_wallpapers.length := by omega
        rcases hcase with hcs | hcs
        · rw [hcs, alookup_alUpdate_self] at h'
          cases h'
          have hle : (t0.available_wallpapers.erase (expand_user env.home w)).length =
              t0.available_wallpapers.length - 1 := List.length_erase_of_mem hmem0
          intro hnil
          have hnil' : t0.available_wallpapers.erase (expand_user env.home w) = [] := hnil
          rw [hnil'] at hle
          simp at hle
          omega
        · rw [hcs, alookup_alUpdate_self] at h'
          cases h'
          simp
      · rcases hcase with hcs | hcs <;>
          rw [hcs, alookup_alUpdate_ne _ _ _ _ hntn, hn] at h' <;>
          (cases h'; exact hne)

/-- C1 witness: at the concrete single-wallpaper theme, removal of the only
wallpaper is refused with state and document unchanged. -/
theorem remove_last_wallpaper_refused_witness :
    alookup stOne.themes ((some "dark").getD stOne.current) = some thDarkOne ∧
    thDarkOne.available_wallpapers = [expand_user envMain.home "/h/w/a.png"] ∧
    ThemeManager.remove_wallpaper_from_theme envMain (Eff.mk true true 0) stOne docMain
      "/h/w/a.png" (some "dark") = (false, stOne, docMain) :=
  ⟨by decide, by decide,
   (remove_last_wallpaper_refused envMain (Eff.mk true true 0) stOne docMain
     "/h/w/a.png" (some "dark")).1 thDarkOne (by decide) (by decide)⟩

/-- C2: when the wallpaper file is valid, the theme is known and the
wallpaper is not yet present, a raising store step inside
`add_wallpaper_to_theme` makes the call return failure with the in-memory
append rolled back — state and persisted document equal their pre-call
values. -/
theorem add_wallpaper_rollback_on_store_failure (env : Env) (st : MState)
    (doc : Document) (w : String) (tno : Option String) (th : Theme)
    (hth : alookup st.themes (tno.getD st.current) = some th)
    (hfs : env.fs (expand_user env.home w) = true)
    (hext : has_valid_ext (expand_user env.home w) = true)
    (hmem : th.available_wallpapers.contains (expand_user env.home w) = false)
    (hstore : raised (Config._add_wallpaper_to_theme env doc (tno.getD st.current)
      (to_config_path env.home (expand_user env.home w))) = true) :
    ThemeManager.add_wallpaper_to_theme env st doc w tno = (false, st, doc) := by
  obtain ⟨sthemes, stcur⟩ := st
  obtain ⟨thn, tha, thi⟩ := th
  unfold ThemeManager.add_wallpaper_to_theme
  cases hs : Config._add_wallpaper_to_theme env doc
      (tno.getD (MState.mk sthemes stcur).current)
      (to_config_path env.home (expand_user env.home w)) with
  | ok d =>
    rw [hs] at hstore
    simp [raised] at hstore
  | error e =>
    simp only [hth, hfs, hext, hmem, hs, not_true, if_false, ite_true, ite_false,
      Bool.false_eq_true, not_false_iff]
    rw [alUpdate_alUpdate]
    rw [erase_append_singleton (contains_false_not_mem hmem)]
    rw [alUpdate_self _ _ _ hth]

/-- C2 witness: with the persisted document lacking a themes mapping the
store step raises `ValueError`; the call fails and returns the untouched
state and document. -/
theorem add_wallpaper_rollback_on_store_failure_witness :
    alookup stMain.themes ((some "dark").getD stMain.current) = some thDark ∧
    envMain.fs (expand_user envMain.home "/other/c.png") = true ∧
    has_valid_ext (expand_user envMain.home "/other/c.png") = true ∧
    thDark.available_wallpapers.contains (expand_user envMain.home "/other/c.png") = false ∧
    raised (Config._add_wallpaper_to_theme envMain (Document.mk none none none none none none)
      ((some "dark").getD stMain.current)
      (to_config_path envMain.home (expand_user envMain.home "/other/c.png"))) = true ∧
    ThemeManager.add_wallpaper_to_theme envMain stMain
      (Document.mk none none none none none none) "/other/c.png" (some "dark") =
      (false, stMain, Document.mk none none none none none none) :=
  ⟨by decide, by decide, by decide, by decide, by decide,
   add_wallpaper_rollback_on_store_failure envMain stMain
     (Document.mk none none none none none none) "/other/c.png" (some "dark") thDark
     (by decide) (by decide) (by decide) (by decide) (by decide)⟩

/-- Environment for the spec scenario in which `b.png` has been deleted. -/
def fsDel : String → Bool := fun p => ["/h/w/a.png", "/other/c.png"].contains p

/-- The x11 environment with `b.png` deleted from disk. -/
def envDel : Env :=
  { session := "x11", home := "/h", fs := fsDel, configExists := true }

/-- The construction outcome asserted by the amended claim: keep the pointer
exactly when it is set and the file exists, otherwise transition through
`set_random_wallpaper`; membership of the pointer in the adopted theme's
wallpaper list plays no role. -/
def init_expected (env : Env) (eff : Eff) (themes : List (String × Theme))
    (c : String) (doc : Document) : Option String → Except PyErr ThemeManager.InitOut
  | some p =>
    if env.fs p then
      Except.ok (ThemeManager.InitOut.mk (MState.mk themes c) doc false)
    else
      (ThemeManager.set_random_wallpaper env eff (MState.mk themes c) doc).map
        (fun r => ThemeManager.InitOut.mk r.1 r.2 true)
  | none =>
    (ThemeManager.set_random_wallpaper env eff (MState.mk themes c) doc).map
      (fun r => ThemeManager.InitOut.mk r.1 r.2 true)

/-- C3 amended: when the session's current-theme pointer names a catalog
entry, construction adopts it and checks the current-wallpaper pointer only
for being set and existing on disk: if the pointed-to file exists the
pointer is kept — membership in the adopted theme's wallpaper list is not
consulted — and otherwise construction transitions via
`set_random_wallpaper`. -/
theorem init_wallpaper_check_amended (env : Env) (eff : Eff) (doc : Document)
    (ts : List Theme) (c : String) (th : Theme) (w : Option String)
    (hts : Config.get_all_themes env doc = Except.ok ts)
    (hne : 1 ≤ (ThemeManager.mk_dict ts).length)
    (hget : (if env.session = "x11" then Config.get_current_xtheme env doc
             else if env.session = "wayland" then Config.get_current_wtheme env doc
             else Except.error PyErr.invalidSession) = Except.ok (some c))
    (hth : alookup (ThemeManager.mk_dict ts) c = some th)
    (hw : Config.get_current_wallpaper env doc = Except.ok w) :
    ThemeManager.mk env eff doc =
      init_expected env eff (ThemeManager.mk_dict ts) c doc w := by
  unfold ThemeManager.mk
  rw [hts]
  simp only [Bind.bind, Except.bind]
  rw [if_neg (by omega : ¬ (ThemeManager.mk_dict ts).length < 1)]
  rw [hget]
  simp only [Bind.bind, Except.bind]
  rw [hth]
  rw [hw]
  unfold init_expected
  cases w with
  | none =>
    cases hr : ThemeManager.set_random_wallpaper env eff
        (MState.mk (ThemeManager.mk_dict ts) c) doc with
    | ok pr => simp [hr, Except.map, Pure.pure, Except.pure]
    | error e => simp [hr, Except.map]
  | some p =>
    by_cases hfs : env.fs p = true
    · simp [hfs, Pure.pure, Except.pure]
    · have hfs' : env.fs p = false := by
        cases hb : env.fs p
        · rfl
        · exact absurd hb hfs
      cases hr : ThemeManager.set_random_wallpaper env eff
          (MState.mk (ThemeManager.mk_dict ts) c) doc with
      | ok pr => simp [hfs', hr, Except.map, Pure.pure, Except.pure]
      | error e => simp [hfs', hr, Except.map]

/-- C3 amended witness: the spec scenario with `b.png` deleted from disk —
the theorem applied at that concrete input shows construction transitioning
through `set_random_wallpaper`. -/
theorem init_wallpaper_check_amended_witness :
    Config.get_all_themes envDel docMain = Except.ok [thDarkOne] ∧
    ThemeManager.mk envDel (Eff.mk true true 0) docMain =
      init_expected envDel (Eff.mk true true 0) (ThemeManager.mk_dict [thDarkOne])
        "dark" docMain (some "/h/w/b.png") :=
  ⟨by decide,
   init_wallpaper_check_amended envDel (Eff.mk true true 0) docMain [thDarkOne] "dark"
     thDarkOne (some "/h/w/b.png") (by decide) (by decide) (by decide) (by decide)
     (by decide)⟩

theorem add_store_eq (env : Env) (doc : Document) (tn cp : String)
    (dts : List (String × Option ThemeParams)) (p0 : Option ThemeParams)
    (hc : env.configExists = true) (hdts : doc.themes = some dts)
    (hp0 : alookup dts tn = some p0)
    (hdmem : (params_aw p0).contains cp = false) :
    Config._add_wallpaper_to_theme env doc tn cp =
      Except.ok { doc with themes := some (alUpdate dts tn
        (some (ThemeParams.mk (some (some (params_aw p0 ++ [cp])))))) } := by
  have hdnm : cp ∉ params_aw p0 := contains_false_not_mem hdmem
  unfold Config._add_wallpaper_to_theme Config.load_yaml Config.dump_yaml
  rw [hc]
  simp only [if_true, Bind.bind, Except.bind]
  simp only [hdts, hp0]
  cases p0 with
  | none =>
    simp only [params_aw] at hdnm
    simp [hdnm, params_aw]
  | some ps =>
    simp only [params_aw] at hdnm
    simp [hdnm, params_aw]

theorem remove_store_eq (env : Env) (doc : Document) (tn cp : String)
    (dts : List (String × Option ThemeParams)) (aw : List String)
    (hc : env.configExists = true) (hdts : doc.themes = some dts)
    (hp0 : alookup dts tn = some (some (ThemeParams.mk (some (some aw)))))
    (hmem : aw.contains cp = true)
    (hcust : (doc.customWallpapers.getD []).contains cp = false) :
    Config._remove_wallpaper_from_theme env doc tn cp =
      Except.ok { doc with themes := some (alUpdate dts tn
        (some (ThemeParams.mk (some (some (aw.erase cp)))))) } := by
  unfold Config._remove_wallpaper_from_theme Config.load_yaml Config.dump_yaml
  rw [hc]
  simp only [if_true, Bind.bind, Except.bind]
  simp only [hdts, hp0]
  have hm : cp ∈ aw := contains_true_mem hmem
  cases hcw : doc.customWallpapers with
  | none => simp [hm, hcw]
  | some cw =>
    rw [hcw] at hcust
    simp only [Option.getD_some] at hcust
    have hcnm : cp ∉ cw := contains_false_not_mem hcust
    simp [hm, hcw, hcnm]

/-- C6: for a known theme with at least one wallpaper, adding a valid
wallpaper not already present (in memory, in the stored theme list or in
the stored custom list) and then removing the same path succeeds in both
steps and restores the theme's wallpaper set exactly — the in-memory theme
map, the stored per-theme wallpaper list and the stored custom-wallpapers
list all equal their pre-call values (current-wallpaper pointers and cache
contents excepted). -/
theorem add_remove_round_trip (env : Env) (eff : Eff) (st : MState) (doc : Document)
    (w tn wp cp : String) (th thc : Theme)
    (dts : List (String × Option ThemeParams)) (p0 : Option ThemeParams)
    (hwp : wp = expand_user env.home w)
    (hcp : cp = to_config_path env.home wp)
    (hs : env.session = "x11" ∨ env.session = "wayland")
    (hc : env.configExists = true)
    (hth : alookup st.themes tn = some th)
    (hne : th.available_wallpapers ≠ [])
    (hfs : env.fs wp = true)
    (hext : has_valid_ext wp = true)
    (hmem : th.available_wallpapers.contains wp = false)
    (hdts : doc.themes = some dts)
    (hp0 : alookup dts tn = some p0)
    (hdmem : (params_aw p0).contains cp = false)
    (hcust : (doc.customWallpapers.getD []).contains cp = false)
    (hcth : alookup st.themes st.current = some thc)
    (hcne : thc.available_wallpapers ≠ []) :
    (ThemeManager.add_wallpaper_to_theme env st doc w (some tn)).1 = true ∧
    ∃ st2 doc2,
      ThemeManager.remove_wallpaper_from_theme env eff
        (ThemeManager.add_wallpaper_to_theme env st doc w (some tn)).2.1
        (ThemeManager.add_wallpaper_to_theme env st doc w (some tn)).2.2 w (some tn) =
        (true, st2, doc2) ∧
      st2.themes = st.themes ∧
      doc_theme_wallpapers doc2 tn = doc_theme_wallpapers doc tn ∧
      doc2.customWallpapers = doc.customWallpapers := by
  subst hwp
  subst hcp
  have hnm : expand_user env.home w ∉ th.available_wallpapers :=
    contains_false_not_mem hmem
  have hadd : ThemeManager.add_wallpaper_to_theme env st doc w (some tn) =
      (true,
       MState.mk (alUpdate st.themes tn
         (Theme.mk th.name (th.available_wallpapers ++ [expand_user env.home w]) th.icon))
         st.current,
       { doc with themes := some (alUpdate dts tn (some (ThemeParams.mk (some (some
         (params_aw p0 ++ [to_config_path env.home (expand_user env.home w)])))))) }) := by
    unfold ThemeManager.add_wallpaper_to_theme
    simp only [Option.getD_some, hfs, hext, hth,
      add_store_eq env doc tn (to_config_path env.home (expand_user env.home w)) dts p0
        hc hdts hp0 hdmem]
    simp [hnm]
  rw [hadd]
  refine ⟨rfl, ?_⟩
  -- facts about the intermediate state
  have hth1 : (Theme.mk th.name
      ((th.available_wallpapers ++ [expand_user env.home w]).erase (expand_user env.home w))
      th.icon) = th := by
    rw [erase_append_singleton hnm]
  have hstThemes : alUpdate (alUpdate st.themes tn
      (Theme.mk th.name (th.available_wallpapers ++ [expand_user env.home w]) th.icon)) tn
      (Theme.mk th.name
        ((th.available_wallpapers ++ [expand_user env.home w]).erase (expand_user env.home w))
        th.icon) = st.themes := by
    rw [alUpdate_alUpdate, hth1, alUpdate_self _ _ _ hth]
  have hdnm : to_config_path env.home (expand_user env.home w) ∉ params_aw p0 :=
    contains_false_not_mem hdmem
  have hremStore : Config._remove_wallpaper_from_theme env
      { doc with themes := some (alUpdate dts tn (some (ThemeParams.mk (some (some
        (params_aw p0 ++ [to_config_path env.home (expand_user env.home w)]))))))} tn
      (to_config_path env.home (expand_user env.home w)) =
      Except.ok { doc with themes := some (alUpdate dts tn (some (ThemeParams.mk
        (some (some (params_aw p0)))))) } := by
    have hq := remove_store_eq env
      { doc with themes := some (alUpdate dts tn (some (ThemeParams.mk (some (some
        (params_aw p0 ++ [to_config_path env.home (expand_user env.home w)]))))))} tn
      (to_config_path env.home (expand_user env.home w))
      (alUpdate dts tn (some (ThemeParams.mk (some (some
        (params_aw p0 ++ [to_config_path env.home (expand_user env.home w)]))))))
      (params_aw p0 ++ [to_config_path env.home (expand_user env.home w)])
      hc rfl (alookup_alUpdate_self _ _ _) (by simp) hcust
    rw [erase_append_singleton hdnm] at hq
    rw [hq]
    congr 1
    congr 1
    rw [alUpdate_alUpdate]
  have hdocTW : doc_theme_wallpapers
      { doc with themes := some (alUpdate dts tn (some (ThemeParams.mk
        (some (some (params_aw p0)))))) } tn = doc_theme_wallpapers doc tn := by
    unfold doc_theme_wallpapers
    rw [hdts]
    simp only [hp0, alookup_alUpdate_self]
    simp [params_aw]
  -- evaluate the removal
  unfold ThemeManager.remove_wallpaper_from_theme
  have hlookA : alookup (MState.mk (alUpdate st.themes tn
      (Theme.mk th.name (th.available_wallpapers ++ [expand_user env.home w]) th.icon))
      st.current).themes tn =
      some (Theme.mk th.name (th.available_wallpapers ++ [expand_user env.home w]) th.icon) :=
    alookup_alUpdate_self _ _ _
  have hcontA : (th.available_wallpapers ++ [expand_user env.home w]).contains
      (expand_user env.home w) = true := by simp
  have hlenA : ((th.available_wallpapers ++ [expand_user env.home w]).length ≤ 1) = False := by
    have h1 : 0 < th.available_wallpapers.length := List.length_pos.mpr hne
    simp only [List.length_append, List.length_singleton, eq_iff_iff, iff_false]
    omega
  simp only [Option.getD_some, hlookA, hcontA, hlenA, not_true, not_false_iff,
    if_true, if_false, ite_true, ite_false,
    hremStore, get_current_wallpaper_eq env _ hs hc]
  have hptr : session_wallpaper_ptr env
      { doc with themes := some (alUpdate dts tn (some (ThemeParams.mk
        (some (some (params_aw p0)))))) } = session_wallpaper_ptr env doc := by
    unfold session_wallpaper_ptr
    rcases hs with h | h <;> simp [h]
  rw [hptr]
  cases hpv : session_wallpaper_ptr env doc with
  | none =>
    simp only [Option.map_none']
    exact ⟨_, _, rfl, hstThemes, hdocTW, rfl⟩
  | some c =>
    simp only [Option.map_some']
    by_cases hceq : expand_user env.home (expand_user env.home (strTrim c)) =
        expand_user env.home w
    · have hcur : (MState.mk (alUpdate (alUpdate st.themes tn
          (Theme.mk th.name (th.available_wallpapers ++ [expand_user env.home w]) th.icon)) tn
          (Theme.mk th.name
            ((th.available_wallpapers ++ [expand_user env.home w]).erase
              (expand_user env.home w))
            th.icon)) st.current).current_theme.available_wallpapers ≠ [] := by
        unfold MState.current_theme
        simp only [hstThemes]
        simp only [hcth, Option.getD_some]
        exact hcne
      obtain ⟨d2, hr, hrt, hrc⟩ := set_random_wallpaper_ok env eff _ _ hc hcur
      rw [if_pos hceq]
      rw [hr]
      refine ⟨_, _, rfl, hstThemes, ?_, ?_⟩
      · unfold doc_theme_wallpapers at hdocTW ⊢
        rw [hrt]
        exact hdocTW
      · rw [hrc]
    · rw [if_neg hceq]
      exact ⟨_, _, rfl, hstThemes, hdocTW, rfl⟩

/-- C6 witness: the theorem applied to the concrete fixtures — adding
`/other/c.png` to dark and removing it again restores the original theme
map, stored theme list and custom list. -/
theorem add_remove_round_trip_witness :
    (ThemeManager.add_wallpaper_to_theme envMain stMain docMain "/other/c.png"
      (some "dark")).1 = true ∧
    ∃ st2 doc2,
      ThemeManager.remove_wallpaper_from_theme envMain (Eff.mk true true 0)
        (ThemeManager.add_wallpaper_to_theme envMain stMain docMain "/other/c.png"
          (some "dark")).2.1
        (ThemeManager.add_wallpaper_to_theme envMain stMain docMain "/other/c.png"
          (some "dark")).2.2
        "/other/c.png" (some "dark") = (true, st2, doc2) ∧
      st2.themes = stMain.themes ∧
      doc_theme_wallpapers doc2 "dark" = doc_theme_wallpapers docMain "dark" ∧
      doc2.customWallpapers = docMain.customWallpapers :=
  add_remove_round_trip envMain (Eff.mk true true 0) stMain docMain "/other/c.png" "dark"
    "/other/c.png" "/other/c.png" thDark thDark [("dark", darkParams)] darkParams
    (by decide) (by decide) (Or.inl rfl) rfl (by decide) (by decide) (by decide)
    (by decide) (by decide) (by decide) (by decide) (by decide) (by decide) (by decide)
    (by decide)
